import Mathlib

/-!
Shallow embedding of the state-tracking and change-detection core of
`change-poller` (`src/main.py`), together with theorems settling the
specification claims about it.

Conventions of the embedding:
* Python dict-shaped records (`file_data`, the per-page config entries, the
  path-related parts of `argConf`) become Lean structures; a key that may be
  absent becomes an `Option` field.
* Python exceptions that escape the modelled code become `Except` errors
  (`PyExc` names the Python exception class).
* Python `set(...)` values become `Finset String`; iteration order over a
  Python set is unspecified, so quantities built by iterating a set are
  modelled as `Finset`s.
* Machine-level concerns (actual filesystem, Selenium, logging handlers) are
  abstracted to the data that flows through the modelled control path:
  e.g. whether a write succeeded is a `Bool` parameter, and the logger's
  side effects are reduced to the classification data the code computes.
-/

namespace ChangePoller

/-! ### Data model (spec section 3, `src/main.py` lines 443-478, 556-575) -/

/-- One configured page (an entry of `conf['pages']`): `url`, `selector`,
and the optional `regex` key (stored only when a third page argument was
given, `src/main.py` lines 243-250). -/
structure PageSpec where
  url : String
  selector : String
  regex : Option String
deriving DecidableEq, Repr

/-- The persisted per-page record `file_data` (`src/main.py` lines 470-478).
`error_description` and `new_url` model keys that may be absent from the
dict. -/
structure PageState where
  last_content_change : Nat
  last_check : Nat
  title : String
  url : String
  domain : String
  content : List String
  error : Bool
  error_description : Option String
  new_url : Option String
deriving DecidableEq, Repr

/-- One entry appended to `allChanges` (`src/main.py` lines 569-575).
`added` and `removed` are built by iterating Python sets, whose order is
unspecified, so they are modelled as finite sets. -/
structure ChangeRecord where
  added : Finset String
  removed : Finset String
  title : String
  url : String
  domain : String
deriving DecidableEq

/-- The three exception classes caught at `src/main.py` line 525:
`WebDriverException`, `NoSuchElementException`, and the `LookupError`
raised by the extraction code itself (lines 512 and 518). -/
inductive FetchError where
  | webDriver
  | noSuchElement
  | lookup
deriving DecidableEq, Repr

/-- Outcome of the fetch-and-extract phase as seen by the diffing code:
either one of the caught exceptions, or the fragment tuple `content`
together with `browser.title`. -/
inductive FetchResult where
  | failure (e : FetchError)
  | success (fragments : List String) (title : String)

/-- The `description` strings assigned at `src/main.py` lines 529-536. -/
def errorDescription : FetchError → String
  | FetchError.webDriver => "server cannot be contacted"
  | FetchError.noSuchElement => "element cannot be found"
  | FetchError.lookup => "couldn\x27t find what we were looking for"

/-- Result of one diffing pass over a page: the updated `file_data`, the
optional entry appended to `allChanges`, and the log classification the
branch took (`warnedNewFailure` is the warning-severity message of line 539,
`loggedRecovery` the recovery message of line 552). -/
structure DetectOut where
  state : PageState
  change : Option ChangeRecord
  warnedNewFailure : Bool
  loggedRecovery : Bool
deriving DecidableEq

/-- Embedding of the change-detection logic of the per-page loop body,
`src/main.py` lines 525-578 (the `except` arm for a failed fetch, the
`else` arm diffing `set(file_data['content'])` against `set(content)`, and
the unconditional `last_check` update of line 578).  In the failure arm the
source sets `error` to `True` only when it was `False`, which leaves the
same final value as assigning `True` unconditionally; `error_description`
is always (re)assigned (line 544). -/
def detect (prior : PageState) (res : FetchResult) (now : Nat) : DetectOut :=
  match res with
  | FetchResult.failure e =>
    { state := { prior with
        error := true,
        error_description := some (errorDescription e),
        last_check := now },
      change := none,
      warnedNewFailure := !prior.error,
      loggedRecovery := false }
  | FetchResult.success fragments title =>
    let cleared : PageState :=
      if prior.error then { prior with error := false, error_description := none } else prior
    if prior.content.toFinset = fragments.toFinset then
      { state := { cleared with last_check := now },
        change := none,
        warnedNewFailure := false,
        loggedRecovery := prior.error }
    else
      { state := { cleared with
          content := fragments,
          title := title,
          last_content_change := now,
          last_check := now },
        change := some
          { added := fragments.toFinset \ prior.content.toFinset,
            removed := prior.content.toFinset \ fragments.toFinset,
            title := title,
            url := cleared.url,
            domain := cleared.domain },
        warnedNewFailure := false,
        loggedRecovery := prior.error }

/-! ### Claims C1 and C2: the set diff (`src/main.py` lines 556-578) -/

/-- C1 (amended): a successful fetch whose unordered fragment set equals the
prior content's set produces no ChangeRecord and leaves `content`, `title`
and `last_content_change` unchanged; `last_check` is updated, and when the
prior state was flagged as erroring the `error` flag is additionally cleared
and `error_description` removed (otherwise those two are unchanged as
well). -/
theorem detect_same_set_no_change (prior : PageState) (frags : List String)
    (title : String) (now : Nat)
    (h : prior.content.toFinset = frags.toFinset) :
    (detect prior (FetchResult.success frags title) now).change = none ∧
    (detect prior (FetchResult.success frags title) now).state =
      { prior with
        last_check := now,
        error := false,
        error_description := if prior.error then none else prior.error_description } := by
  by_cases hp : prior.error = true <;>
    simp [detect, h, hp]

/-- Witness for `detect_same_set_no_change`: the fragment order differs
(`["a","b"]` stored, `["b","a"]` fetched) but the sets coincide. -/
def c1WitnessPrior : PageState :=
  { last_content_change := 0, last_check := 0, title := "t", url := "http://a.fi/",
    domain := "a.fi", content := ["a", "b"], error := false, error_description := none,
    new_url := none }

theorem detect_same_set_no_change_witness :
    c1WitnessPrior.content.toFinset = (["b", "a"] : List String).toFinset ∧
    ((detect c1WitnessPrior (FetchResult.success ["b", "a"] "T") 9).change = none ∧
     (detect c1WitnessPrior (FetchResult.success ["b", "a"] "T") 9).state =
       { c1WitnessPrior with
         last_check := 9,
         error := false,
         error_description :=
           if c1WitnessPrior.error then none else c1WitnessPrior.error_description }) :=
  ⟨by decide, detect_same_set_no_change c1WitnessPrior ["b", "a"] "T" 9 (by decide)⟩

/-- Counterexample to C1 as stated: for a prior state currently flagged as
erroring, a successful fetch with the identical fragment set does not leave
everything but `last_check` unchanged - the code first clears `error` and
deletes `error_description` (`src/main.py` lines 551-554). -/
def c1ErrorPrior : PageState :=
  { last_content_change := 0, last_check := 2, title := "t", url := "http://a.fi/",
    domain := "a.fi", content := ["v1"], error := true,
    error_description := some "server cannot be contacted", new_url := none }

theorem detect_same_set_counterexample :
    c1ErrorPrior.content.toFinset = (["v1"] : List String).toFinset ∧
    (detect c1ErrorPrior (FetchResult.success ["v1"] "T") 5).change = none ∧
    (detect c1ErrorPrior (FetchResult.success ["v1"] "T") 5).state ≠
      { c1ErrorPrior with last_check := 5 } := by
  refine ⟨by decide, by decide, ?_⟩
  intro hcontra
  exact absurd (congrArg PageState.error hcontra) (by decide)

/-- C2: a successful fetch whose unordered fragment set differs from the
prior content's set yields a ChangeRecord with `added` the set difference
new minus old and `removed` the difference old minus new (necessarily
disjoint), and updates `content` (preserving the fetched order), `title`
and `last_content_change` (`src/main.py` lines 560-575). -/
theorem detect_changed_set (prior : PageState) (frags : List String)
    (title : String) (now : Nat)
    (h : prior.content.toFinset ≠ frags.toFinset) :
    (detect prior (FetchResult.success frags title) now).change =
      some
        { added := frags.toFinset \ prior.content.toFinset,
          removed := prior.content.toFinset \ frags.toFinset,
          title := title,
          url := prior.url,
          domain := prior.domain } ∧
    Disjoint (frags.toFinset \ prior.content.toFinset)
      (prior.content.toFinset \ frags.toFinset) ∧
    (detect prior (FetchResult.success frags title) now).state.content = frags ∧
    (detect prior (FetchResult.success frags title) now).state.title = title ∧
    (detect prior (FetchResult.success frags title) now).state.last_content_change = now := by
  refine ⟨?_, disjoint_sdiff_sdiff, ?_, ?_, ?_⟩ <;>
    by_cases hp : prior.error = true <;>
      simp [detect, h, hp]

/-- Witness for `detect_changed_set`: `["v1"]` stored, `["v2"]` fetched. -/
def c2WitnessPrior : PageState :=
  { last_content_change := 0, last_check := 0, title := "t", url := "http://a.fi/",
    domain := "a.fi", content := ["v1"], error := false, error_description := none,
    new_url := none }

theorem detect_changed_set_witness :
    c2WitnessPrior.content.toFinset ≠ (["v2"] : List String).toFinset ∧
    ((detect c2WitnessPrior (FetchResult.success ["v2"] "T") 9).change =
      some
        { added := (["v2"] : List String).toFinset \ c2WitnessPrior.content.toFinset,
          removed := c2WitnessPrior.content.toFinset \ (["v2"] : List String).toFinset,
          title := "T",
          url := c2WitnessPrior.url,
          domain := c2WitnessPrior.domain } ∧
     Disjoint ((["v2"] : List String).toFinset \ c2WitnessPrior.content.toFinset)
       (c2WitnessPrior.content.toFinset \ (["v2"] : List String).toFinset) ∧
     (detect c2WitnessPrior (FetchResult.success ["v2"] "T") 9).state.content = ["v2"] ∧
     (detect c2WitnessPrior (FetchResult.success ["v2"] "T") 9).state.title = "T" ∧
     (detect c2WitnessPrior (FetchResult.success ["v2"] "T") 9).state.last_content_change = 9) :=
  ⟨by decide, detect_changed_set c2WitnessPrior ["v2"] "T" 9 (by decide)⟩

/-! ### Claim C5: error hysteresis (`src/main.py` lines 525-554) -/

/-- C5: after any failing fetch the state is erroring, so a second
consecutive failure is not classified as a new one (no warning-severity
log; `error` stays true), and a failure followed by a success leaves
`error = false` with `error_description` absent. -/
theorem error_hysteresis (prior : PageState) (e1 e2 : FetchError)
    (frags : List String) (title : String) (t1 t2 t3 : Nat) :
    ((detect (detect prior (FetchResult.failure e1) t1).state
        (FetchResult.failure e2) t2).warnedNewFailure = false ∧
     (detect (detect prior (FetchResult.failure e1) t1).state
        (FetchResult.failure e2) t2).state.error = true) ∧
    ((detect (detect prior (FetchResult.failure e1) t1).state
        (FetchResult.success frags title) t3).state.error = false ∧
     (detect (detect prior (FetchResult.failure e1) t1).state
        (FetchResult.success frags title) t3).state.error_description = none) := by
  refine ⟨⟨rfl, rfl⟩, ?_, ?_⟩ <;> (simp only [detect]; split <;> rfl)

/-! ### Claim C9: empty extraction and regex no-match are failures
(`src/main.py` lines 505-523) -/

/-- The caught fetch outcomes reaching the extraction code: a transport
error from `browser.get` (`WebDriverException`), a selector miss
(`NoSuchElementException`), or the element's raw text together with the
page title. -/
inductive RawFetch where
  | transportError
  | elementNotFound
  | gotText (text : String) (title : String)

/-- Embedding of `src/main.py` lines 506-523: when the page has a `regex`,
`re.search` is applied (its result is supplied by the abstract `engine`
oracle, returning the capture-group tuple on a match) and a non-match
raises `LookupError`; without a regex, empty text raises `LookupError` and
otherwise the text becomes the one-element tuple `(content,)`. -/
def applyPattern (engine : String → String → Option (List String))
    (page : PageSpec) (text : String) : Except FetchError (List String) :=
  match page.regex with
  | some r =>
    match engine r text with
    | none => Except.error FetchError.lookup
    | some groups => Except.ok groups
  | none =>
    if text = "" then Except.error FetchError.lookup
    else Except.ok [text]

/-- Fetch, extraction and diffing for one page (the guarded body of
`src/main.py` lines 495-578, after any URL migration). -/
def pollStep (engine : String → String → Option (List String)) (page : PageSpec)
    (prior : PageState) (raw : RawFetch) (now : Nat) : DetectOut :=
  match raw with
  | RawFetch.transportError => detect prior (FetchResult.failure FetchError.webDriver) now
  | RawFetch.elementNotFound => detect prior (FetchResult.failure FetchError.noSuchElement) now
  | RawFetch.gotText text title =>
    match applyPattern engine page text with
    | Except.error e => detect prior (FetchResult.failure e) now
    | Except.ok frags => detect prior (FetchResult.success frags title) now

/-- C9: empty extracted text with no configured regex, and a configured
regex that does not match, are both classified as `LookupError`-style fetch
failures: the poll sets `error := true` with the no-match description and
produces no ChangeRecord. -/
theorem no_match_is_failure (engine : String → String → Option (List String))
    (page : PageSpec) (prior : PageState) (title : String) (now : Nat) :
    (page.regex = none →
      (pollStep engine page prior (RawFetch.gotText "" title) now).change = none ∧
      (pollStep engine page prior (RawFetch.gotText "" title) now).state.error = true ∧
      (pollStep engine page prior (RawFetch.gotText "" title) now).state.error_description =
        some (errorDescription FetchError.lookup)) ∧
    (∀ r text, page.regex = some r → engine r text = none →
      (pollStep engine page prior (RawFetch.gotText text title) now).change = none ∧
      (pollStep engine page prior (RawFetch.gotText text title) now).state.error = true ∧
      (pollStep engine page prior (RawFetch.gotText text title) now).state.error_description =
        some (errorDescription FetchError.lookup)) := by
  constructor
  · intro h
    refine ⟨?_, ?_, ?_⟩ <;> simp [pollStep, applyPattern, h, detect]
  · intro r text h1 h2
    refine ⟨?_, ?_, ?_⟩ <;> simp [pollStep, applyPattern, h1, h2, detect]

/-- Witness material for `no_match_is_failure`: a regex-free page polled
with empty text, and a page whose regex finds no match. -/
def c9Prior : PageState :=
  { last_content_change := 0, last_check := 0, title := "t", url := "http://a.fi/",
    domain := "a.fi", content := ["v1"], error := false, error_description := none,
    new_url := none }

def c9PageNoRegex : PageSpec :=
  { url := "http://a.fi/", selector := "div", regex := none }

def c9PageRegex : PageSpec :=
  { url := "http://a.fi/", selector := "div", regex := some "v[0-9]" }

def c9EngineNone : String → String → Option (List String) := fun _ _ => none

theorem no_match_is_failure_witness :
    ((pollStep c9EngineNone c9PageNoRegex c9Prior (RawFetch.gotText "" "T") 7).change = none ∧
     (pollStep c9EngineNone c9PageNoRegex c9Prior (RawFetch.gotText "" "T") 7).state.error = true ∧
     (pollStep c9EngineNone c9PageNoRegex c9Prior
        (RawFetch.gotText "" "T") 7).state.error_description =
       some (errorDescription FetchError.lookup)) ∧
    ((pollStep c9EngineNone c9PageRegex c9Prior (RawFetch.gotText "body" "T") 7).change = none ∧
     (pollStep c9EngineNone c9PageRegex c9Prior
        (RawFetch.gotText "body" "T") 7).state.error = true ∧
     (pollStep c9EngineNone c9PageRegex c9Prior
        (RawFetch.gotText "body" "T") 7).state.error_description =
       some (errorDescription FetchError.lookup)) :=
  ⟨(no_match_is_failure c9EngineNone c9PageNoRegex c9Prior "T" 7).1 rfl,
   (no_match_is_failure c9EngineNone c9PageRegex c9Prior "T" 7).2 "v[0-9]" "body" rfl rfl⟩

/-! ### Claims C6 and C7: the config merge (`src/main.py` lines 364-384)

`getConfig` iterates the keys of the stored file.  For a key the CLI did
not set (`k not in conf or k not in setParams`) the stored value wins
outright; for a list-typed key both sides set - for the page list this is
`k = 'pages'` - it iterates the CLI list and appends to the stored list
every entry `i` with `i not in fileConf[k]`, recording `i['url']` into
`addedPageUrls`.  Note that `in` on a list of dicts compares whole dicts,
not the `url` key. -/

/-- The list-merge loop of `src/main.py` lines 372-381 for `k = 'pages'`:
`acc` is `fileConf['pages']` (which the loop extends in place) and `urls`
is `addedPageUrls`. -/
def mergeLoop : List PageSpec → List PageSpec → List String → List PageSpec × List String
  | [], acc, urls => (acc, urls)
  | i :: rest, acc, urls =>
    if i ∈ acc then mergeLoop rest acc urls
    else mergeLoop rest (acc ++ [i]) (urls ++ [i.url])

/-- The merge of the page list: when the CLI set `pages` (`'pages' ∈
setParams`) the stored list is extended by the loop above; otherwise the
stored value wins outright (`src/main.py` line 366-368; `'pages'` is always
a key of the CLI-side `conf`, line 181). -/
def mergeConfigPages (stored cli : List PageSpec) (pagesSetOnCli : Bool) :
    List PageSpec × List String :=
  if pagesSetOnCli then mergeLoop cli stored [] else (stored, [])

/-- Description of the appended entries, written from the amended claim:
the CLI entries not already present - as whole records - in the growing
active list, in CLI order. -/
def mergeExtras : List PageSpec → List PageSpec → List PageSpec
  | [], _ => []
  | i :: rest, acc =>
    if i ∈ acc then mergeExtras rest acc
    else i :: mergeExtras rest (acc ++ [i])

lemma mergeLoop_eq_extras (cli : List PageSpec) : ∀ (acc : List PageSpec) (urls : List String),
    mergeLoop cli acc urls =
      (acc ++ mergeExtras cli acc, urls ++ (mergeExtras cli acc).map PageSpec.url) := by
  induction cli with
  | nil => intro acc urls; simp [mergeLoop, mergeExtras]
  | cons i rest ih =>
    intro acc urls
    by_cases hmem : i ∈ acc
    · simp [mergeLoop, mergeExtras, hmem, ih]
    · simp [mergeLoop, mergeExtras, hmem, ih, List.append_assoc]

lemma mergeExtras_not_stored (cli : List PageSpec) : ∀ (acc : List PageSpec),
    ∀ p ∈ mergeExtras cli acc, p ∈ cli ∧ p ∉ acc := by
  induction cli with
  | nil => intro acc p hp; simp [mergeExtras] at hp
  | cons i rest ih =>
    intro acc p hp
    by_cases hmem : i ∈ acc
    · simp only [mergeExtras, if_pos hmem] at hp
      obtain ⟨h1, h2⟩ := ih acc p hp
      exact ⟨List.mem_cons_of_mem _ h1, h2⟩
    · simp only [mergeExtras, if_neg hmem, List.mem_cons] at hp
      rcases hp with rfl | hp
      · exact ⟨List.mem_cons_self _ _, hmem⟩
      · obtain ⟨h1, h2⟩ := ih (acc ++ [i]) p hp
        refine ⟨List.mem_cons_of_mem _ h1, fun hacc => h2 ?_⟩
        exact List.mem_append_left _ hacc

/-- C6 (amended): when the CLI set the page list, the merged active page
set is the stored list followed by exactly those CLI entries not already
present as an identical whole record (same `url`, `selector` and `regex`),
and `addedPageUrls` records precisely the urls of the appended entries, in
order.  Deduplication is by whole-record equality, not by the `url` key. -/
theorem merge_pages_union (stored cli : List PageSpec) :
    (mergeConfigPages stored cli true).1 = stored ++ mergeExtras cli stored ∧
    (mergeConfigPages stored cli true).2 = (mergeExtras cli stored).map PageSpec.url := by
  simp [mergeConfigPages, mergeLoop_eq_extras]

/-- Counterexample to C6 as stated: a stored page and a CLI page with the
same `url` but different `selector` are distinct records, so the CLI page
is appended and the merged active set holds two PageSpecs sharing one
`url`. -/
def c6StoredPage : PageSpec :=
  { url := "http://a.fi/x", selector := "s1", regex := none }

def c6CliPage : PageSpec :=
  { url := "http://a.fi/x", selector := "s2", regex := none }

theorem merge_pages_url_clash :
    c6StoredPage.url = c6CliPage.url ∧
    c6StoredPage ≠ c6CliPage ∧
    (mergeConfigPages [c6StoredPage] [c6CliPage] true).1 = [c6StoredPage, c6CliPage] ∧
    ¬ List.Pairwise (fun a b => a.url ≠ b.url)
        (mergeConfigPages [c6StoredPage] [c6CliPage] true).1 := by
  refine ⟨rfl, by decide, by decide, ?_⟩
  intro hpw
  rw [show (mergeConfigPages [c6StoredPage] [c6CliPage] true).1 =
      [c6StoredPage, c6CliPage] by decide] at hpw
  exact (List.pairwise_cons.mp hpw).1 c6CliPage (List.mem_cons_self _ _) rfl

lemma mergeLoop_all_present : ∀ (l acc : List PageSpec) (urls : List String),
    (∀ i ∈ l, i ∈ acc) → mergeLoop l acc urls = (acc, urls) := by
  intro l
  induction l with
  | nil => intro acc urls _; rfl
  | cons i rest ih =>
    intro acc urls h
    have hi : i ∈ acc := h i (List.mem_cons_self _ _)
    rw [mergeLoop, if_pos hi]
    exact ih acc urls fun j hj => h j (List.mem_cons_of_mem _ hj)

/-- C7: merging a configuration back into itself with an empty CLI
override leaves the page list unchanged, in unchanged order, and marks no
page as newly added.  Without `--page` arguments `'pages'` is not in
`setParams`, so the stored list wins outright (first conjunct); even under
the list-merge path an empty CLI list (second conjunct) or the identical
list itself (third conjunct) appends nothing. -/
theorem merge_idempotent (pages : List PageSpec) :
    mergeConfigPages pages [] false = (pages, []) ∧
    mergeConfigPages pages [] true = (pages, []) ∧
    mergeConfigPages pages pages true = (pages, []) := by
  refine ⟨rfl, rfl, ?_⟩
  simpa [mergeConfigPages] using mergeLoop_all_present pages pages [] fun i hi => hi

/-! ### Claim C10: the slug function `getSafeFilename`
(`src/main.py` lines 681-692)

`getSafeFilename` runs `re.search` with the pattern consisting of the
separator `://` followed by a dot-star capture anchored at the line end
(the raw pattern is built from the separator, a greedy any-character
group, and the end anchor), takes group 1, substitutes an underscore for
every character outside the class of word characters, hyphen, underscore,
dot and space, and strips leading and trailing underscores.  When the
search fails, `.group(1)` is called on `None` and Python raises
`AttributeError`; `none` models that.  Python semantics embedded here: the
any-character token does not match a newline, and the unanchored-mode end
anchor matches only at the end of the string or just before a final
newline, so at a given separator occurrence the search succeeds exactly
when the suffix holds no newline except possibly a single trailing one
(which is then excluded from the capture); on failure the scan resumes one
character further right. -/

/-- Matching of the capture-to-line-end part at one separator occurrence:
the whole newline-free suffix, or the suffix minus a single trailing
newline, else no match. -/
def matchToLineEnd (rest : List Char) : Option (List Char) :=
  if rest.all (fun ch => ch != '\n') then some rest
  else if rest.getLast? == some '\n' && rest.dropLast.all (fun ch => ch != '\n') then
    some rest.dropLast
  else none

/-- Head test for the literal separator `://`. -/
def sepAt : List Char → Option (List Char)
  | ':' :: '/' :: '/' :: rest => some rest
  | _ => none

/-- The full search: leftmost separator occurrence whose suffix matches;
on a failed occurrence the scan continues from the next character. -/
def pySearchSepCapture : List Char → Option (List Char)
  | [] => none
  | c :: cs =>
    match sepAt (c :: cs) with
    | some rest =>
      match matchToLineEnd rest with
      | some cap => some cap
      | none => pySearchSepCapture cs
    | none => pySearchSepCapture cs

/-- Everything after the first occurrence of `://`, ignoring the line-end
anchor - this is the claim's reading of the capture. -/
def afterFirstSep : List Char → Option (List Char)
  | [] => none
  | c :: cs =>
    match sepAt (c :: cs) with
    | some rest => some rest
    | none => afterFirstSep cs

/-- Python word characters as the substitution class sees them, restricted
to ASCII (the CLI URL grammar admits only ASCII): letters, digits and the
underscore. -/
def pyWordChar (c : Char) : Bool := c.isAlphanum || c == '_'

/-- The character class kept by the substitution: word characters, hyphen,
underscore, dot and space. -/
def safeChar (c : Char) : Bool :=
  pyWordChar c || c == '-' || c == '_' || c == '.' || c == ' '

/-- The substitution: every character outside the safe class becomes an
underscore. -/
def sanitizeChars (s : List Char) : List Char :=
  s.map fun c => if safeChar c then c else '_'

def dropTrailingUnderscores (s : List Char) : List Char :=
  (s.reverse.dropWhile fun c => c == '_').reverse

/-- Embedding of Python `str.strip` with the underscore argument: remove
leading and trailing underscores. -/
def stripUnderscores (s : List Char) : List Char :=
  (dropTrailingUnderscores s).dropWhile fun c => c == '_'

/-- `getSafeFilename` itself; `none` is the `AttributeError` raised when
the input holds no separator occurrence the search can use. -/
def getSafeFilename (s : List Char) : Option (List Char) :=
  (pySearchSepCapture s).map fun cap => stripUnderscores (sanitizeChars cap)

example : getSafeFilename ("http://a.fi/x?q=1".toList) = some ("a.fi_x_q_1".toList) := by decide

example : getSafeFilename ("https://a.fi/__x__".toList) = some ("a.fi___x".toList) := by decide

lemma pySearchSepCapture_eq_none (s : List Char) (h : afterFirstSep s = none) :
    pySearchSepCapture s = none := by
  induction s with
  | nil => rfl
  | cons c cs ih =>
    cases hsep : sepAt (c :: cs) with
    | some rest => simp [afterFirstSep, hsep] at h
    | none =>
      rw [afterFirstSep, hsep] at h
      rw [pySearchSepCapture, hsep]
      exact ih h

lemma pySearchSepCapture_first_clean (s : List Char) (rest cap : List Char)
    (h1 : afterFirstSep s = some rest) (h2 : matchToLineEnd rest = some cap) :
    pySearchSepCapture s = some cap := by
  induction s with
  | nil => simp [afterFirstSep] at h1
  | cons c cs ih =>
    cases hsep : sepAt (c :: cs) with
    | some r =>
      rw [afterFirstSep, hsep, Option.some.injEq] at h1
      subst h1
      rw [pySearchSepCapture, hsep]
      simp [h2]
    | none =>
      rw [afterFirstSep, hsep] at h1
      rw [pySearchSepCapture, hsep]
      exact ih h1

lemma dropLast_append_getLast_of_getLastEq {l : List Char} {c : Char}
    (h : l.getLast? = some c) : l.dropLast ++ [c] = l := by
  induction l with
  | nil => simp at h
  | cons a t ih =>
    cases t with
    | nil => simp at h; simp [h]
    | cons b t2 =>
      rw [List.getLast?_cons_cons] at h
      simp only [List.dropLast_cons₂, List.cons_append]
      rw [ih h]

lemma stripSanitize_trailing_newline (rest cap : List Char)
    (h : matchToLineEnd rest = some cap) :
    stripUnderscores (sanitizeChars cap) = stripUnderscores (sanitizeChars rest) := by
  unfold matchToLineEnd at h
  split at h
  · simp only [Option.some.injEq] at h
    rw [h]
  · split at h
    · simp only [Option.some.injEq] at h
      subst h
      rename_i hall hlast
      have hl : rest.getLast? = some '\n' := by
        have := (Bool.and_eq_true _ _).mp hlast
        exact of_decide_eq_true (by simpa using this.1)
      conv_rhs => rw [← dropLast_append_getLast_of_getLastEq hl]
      have hsan : sanitizeChars (rest.dropLast ++ ['\n']) =
          sanitizeChars rest.dropLast ++ ['_'] := by
        simp [sanitizeChars, safeChar, pyWordChar]
      rw [hsan]
      unfold stripUnderscores dropTrailingUnderscores
      simp [List.dropWhile]
    · exact absurd h (by simp)

/-- C10 (amended): `getSafeFilename` is a function (hence deterministic);
on any input whose first `://` occurrence is followed by a suffix holding
no newline except possibly a single trailing one, it succeeds and returns
that suffix with every character outside word characters, hyphen,
underscore, dot and space replaced by an underscore and leading and
trailing underscores stripped; on any input with no `://` occurrence -
which the CLI URL grammar rules out - the search finds nothing and the
function fails. -/
theorem getSafeFilename_spec (s : List Char) :
    (afterFirstSep s = none → getSafeFilename s = none) ∧
    (∀ rest, afterFirstSep s = some rest →
      ∀ cap, matchToLineEnd rest = some cap →
        getSafeFilename s = some (stripUnderscores (sanitizeChars rest))) := by
  constructor
  · intro h
    rw [getSafeFilename, pySearchSepCapture_eq_none s h]
    rfl
  · intro rest h1 cap h2
    rw [getSafeFilename, pySearchSepCapture_first_clean s rest cap h1 h2]
    simp [stripSanitize_trailing_newline rest cap h2]

/-- Witness for `getSafeFilename_spec`: a well-formed URL succeeds with the
described transformation; an input with no separator fails. -/
theorem getSafeFilename_spec_witness :
    (getSafeFilename ("http://a.fi/x?q=1".toList) =
       some (stripUnderscores (sanitizeChars ("a.fi/x?q=1".toList)))) ∧
    getSafeFilename ("no separator here".toList) = none :=
  ⟨(getSafeFilename_spec ("http://a.fi/x?q=1".toList)).2 ("a.fi/x?q=1".toList) (by decide)
      ("a.fi/x?q=1".toList) (by decide),
   (getSafeFilename_spec ("no separator here".toList)).1 (by decide)⟩

/-- Counterexample to C10 as stated: the input holds the separator, but a
newline after it defeats the line-end anchor, the search fails, and the
call crashes instead of being total. -/
theorem getSafeFilename_not_total :
    (afterFirstSep ("x://a\nb".toList)).isSome = true ∧
    getSafeFilename ("x://a\nb".toList) = none := by decide

/-! ### Claim C3: URL migration (`src/main.py` lines 480-492)

The migration branch runs when the loaded `file_data` has a `new_url` key.
Its first statement is the log call of line 482, which is missing the
comma between the level and the message: the two adjacent string literals
concatenate, so `_log` receives a single positional argument and Python
raises `TypeError` for the missing required `msg` parameter (`_log` is
`def _log(levelName, msg, *args, **kwargs)`, line 715).  The branch also
computes the refreshed `domain` (line 488) and the new `data_file`
(line 492) from `page['url']` - the configured URL - rather than from
`file_data['new_url']`. -/

/-- Python exception classes surfaced by the modelled code. -/
inductive PyExc where
  | typeError
  | nameError
  | keyError
  | attributeError
deriving DecidableEq, Repr

/-- The level names `logging._nameToLevel` knows (`_log` raises when the
upper-cased level is not among them; that raise itself formats an
undefined variable and so becomes `NameError`, line 728). -/
def logLevelNames : List String :=
  ["CRITICAL", "FATAL", "ERROR", "WARN", "WARNING", "INFO", "DEBUG", "NOTSET"]

/-- The subset of levels `_verbosityToLevel` supports (line 731; an
unsupported one raises `KeyError`, line 732). -/
def supportedLevelNames : List String :=
  ["CRITICAL", "WARNING", "INFO", "DEBUG"]

/-- Calling `_log` with the given positional arguments: fewer than the two
required parameters is an immediate `TypeError`; otherwise the level-name
checks of lines 727-732 run. -/
def logCall : List String → Except PyExc Unit
  | levelName :: _msg :: _ =>
    if levelName.toUpper ∈ logLevelNames then
      if levelName.toUpper ∈ supportedLevelNames then Except.ok ()
      else Except.error PyExc.keyError
    else Except.error PyExc.nameError
  | _ => Except.error PyExc.typeError

/-- The Python `(.[^/]+)`-after-separator search of the `domain_regex`
(`src/main.py` line 437): at a separator occurrence the capture needs one
any-character (not a newline) followed by a maximal nonempty run of
non-slash characters; a failed occurrence resumes the scan one character
further right; no occurrence at all means `.group(1)` on `None`, an
`AttributeError`. -/
def pyDomainSearch : List Char → Option (List Char)
  | [] => none
  | c :: cs =>
    match c, cs with
    | ':', '/' :: '/' :: a :: b :: more =>
      if a != '\n' && b != '/' then some (a :: b :: more.takeWhile fun ch => ch != '/')
      else pyDomainSearch cs
    | _, _ => pyDomainSearch cs

example : pyDomainSearch ("http://a.fi/x".toList) = some ("a.fi".toList) := by decide

/-- What the migration branch leaves behind when it returns: the updated
`file_data`, the path the state will be saved to, and the old path queued
for removal after the save. -/
structure MigrationOut where
  fd : PageState
  dataFile : String
  oldDataFile : Option String
deriving DecidableEq

/-- Embedding of `src/main.py` lines 480-492.  `pageUrl` is `page['url']`
from the configuration and `dataFile` the path derived from it at line
452.  With no pending `new_url` the branch is skipped.  Otherwise the
branch runs: first the malformed log call of line 482 (a single
concatenated positional argument), then - were that call to return - the
url/domain/filename updates, in which both `domain_regex.search` and
`getSafeFilename` are applied to `page['url']`, not to the new URL. -/
def migrationStep (dataDir pageUrl : String) (fd : PageState) (dataFile : String) :
    Except PyExc MigrationOut :=
  match fd.new_url with
  | none => Except.ok { fd := fd, dataFile := dataFile, oldDataFile := none }
  | some b =>
    match logCall [("debug" ++ "Updating url to ") ++ b] with
    | Except.error e => Except.error e
    | Except.ok _ =>
      match pyDomainSearch pageUrl.toList with
      | none => Except.error PyExc.attributeError
      | some dom =>
        match getSafeFilename pageUrl.toList with
        | none => Except.error PyExc.attributeError
        | some slug =>
          Except.ok
            { fd := { fd with url := b, new_url := none, domain := String.mk dom },
              dataFile := dataDir ++ "/" ++ String.mk slug,
              oldDataFile := some dataFile }

/-- C3 as the code behaves: every pending `new_url` migration raises
`TypeError` at the malformed log call before any re-keying happens, so no
state is ever stored under the new slug. -/
theorem migration_always_raises (dataDir pageUrl : String) (fd : PageState)
    (dataFile b : String) (h : fd.new_url = some b) :
    migrationStep dataDir pageUrl fd dataFile = Except.error PyExc.typeError := by
  rw [migrationStep, h]
  rfl

/-- Witness for `migration_always_raises`: a state keyed under
slug(`http://a.fi/`) whose `new_url` points at `http://b.fi/`. -/
def migPrior : PageState :=
  { last_content_change := 0, last_check := 3, title := "t", url := "http://a.fi/",
    domain := "a.fi", content := ["v1"], error := false, error_description := none,
    new_url := some "http://b.fi/" }

theorem migration_always_raises_witness :
    migPrior.new_url = some "http://b.fi/" ∧
    migrationStep "/data" "http://a.fi/" migPrior "/data/a.fi" =
      Except.error PyExc.typeError :=
  ⟨rfl, migration_always_raises "/data" "http://a.fi/" migPrior "/data/a.fi"
    "http://b.fi/" rfl⟩

/-! ### Claim C4: the persistence deferral (`src/main.py` lines 580-599)

The per-page save wraps the write and the old-file removal in a `try`
whose `except OSError` arm is supposed to defer the payload into
`tryAgain`.  That arm first calls `_log` with a `file=sys.stderr` keyword
argument, which it forwards to the configured `logging.Logger._log` - a
parameter that method does not accept, so a `TypeError` escapes (`main`
always configures handlers via `setupLogger` before `run`).  Were the
logger unconfigured, the fallback printer would succeed but the next line
assigns `tryAgain[data_file] = formatJSON(change_data)` and `change_data`
is not defined anywhere in `run` (it is created in `main` only after `run`
returns), so a `NameError` escapes instead - and even that line would have
deferred the run's change batch, not the page's serialized state. -/

/-- Embedding of `src/main.py` lines 580-599 for one page.  `writeOk`
abstracts whether the `open(data_file, 'w')` write succeeds, `removeOk`
whether `os.remove(old_data_file)` does when a migration set one (absent
`old_data_file` raises `NameError`, caught and ignored, lines 593-595);
`loggerConfigured` is `logging.getLogger(__name__).hasHandlers()`.  The
result carries what was written (path and payload) and the deferred-write
map. -/
def persistStep (writeOk removeOk loggerConfigured : Bool) (dataFile payload : String)
    (oldDataFile : Option String) (tryAgain : List (String × String)) :
    Except PyExc (Option (String × String) × List (String × String)) :=
  if writeOk then
    match oldDataFile with
    | none => Except.ok (some (dataFile, payload), tryAgain)
    | some _ =>
      if removeOk then Except.ok (some (dataFile, payload), tryAgain)
      else Except.error (if loggerConfigured then PyExc.typeError else PyExc.nameError)
  else
    Except.error (if loggerConfigured then PyExc.typeError else PyExc.nameError)

/-- C4 as the code behaves: a first-attempt save failure never defers the
payload - the `except OSError` arm itself raises (`TypeError` from the
keyword argument under the configured logger, otherwise `NameError` from
the out-of-scope `change_data`), so `tryAgain` is not extended and the run
aborts before the end-of-run retry loop. -/
theorem failed_save_crashes (removeOk loggerConfigured : Bool)
    (dataFile payload : String) (oldDataFile : Option String)
    (tryAgain : List (String × String)) :
    persistStep false removeOk loggerConfigured dataFile payload oldDataFile tryAgain =
      Except.error (if loggerConfigured then PyExc.typeError else PyExc.nameError) := rfl

/-! ### Claim C8: the `--config-file` option (`src/main.py` lines 296-306
and 333-349) -/

/-- The two path-valued CLI options as argparse delivers them. -/
structure CliPathArgs where
  config_file : Option String
  data_dir : Option String

/-- The path-related keys of `argConf` (`none` models an absent key). -/
structure PathConf where
  config_file : Option String
  data_dir : Option String
deriving DecidableEq, Repr

/-- Embedding of `src/main.py` lines 296-306: `--config-file` appends
`'config_file'` to `setParams` but assigns the value to
`argConf['data_dir']` (line 300); `--data-dir` then assigns
`argConf['data_dir']` as well. -/
def parseArgsPaths (args : CliPathArgs) : PathConf × List String :=
  let step1 : PathConf × List String :=
    match args.config_file with
    | some p => ({ config_file := none, data_dir := some p }, ["config_file"])
    | none => ({ config_file := none, data_dir := none }, [])
  match args.data_dir with
  | some d => ({ step1.1 with data_dir := some d }, step1.2 ++ ["data_dir"])
  | none => step1

/-- The platform-conventional default of `src/main.py` lines 336-347:
`XDG_CONFIG_HOME` if set, else the home-relative config directory, with
the program's subpath appended via the path separator. -/
def xdgDefaultConfigFile (xdgConfigHome : Option String) (home : String) : String :=
  let configDir :=
    match xdgConfigHome with
    | some d => d
    | none => home ++ "/" ++ ".config"
  configDir ++ "/" ++ "change-poller" ++ "/" ++ "config"

/-- Embedding of `src/main.py` lines 333-347: the config file path is the
`config_file` key when `conf` has one, else the XDG default. -/
def resolveConfigFile (conf : PathConf) (xdgConfigHome : Option String)
    (home : String) : String :=
  match conf.config_file with
  | some p => p
  | none => xdgDefaultConfigFile xdgConfigHome home

/-- C8 as the code behaves: supplying `--config-file /tmp/custom.conf`
leaves no `config_file` key in `argConf` (the value lands in `data_dir`),
so `getConfig` resolves the platform default instead of the supplied path,
and the data directory is affected. -/
theorem config_file_flag_misrouted :
    (parseArgsPaths { config_file := some "/tmp/custom.conf", data_dir := none }).1.config_file
        = none ∧
    (parseArgsPaths { config_file := some "/tmp/custom.conf", data_dir := none }).1.data_dir
        = some "/tmp/custom.conf" ∧
    (parseArgsPaths { config_file := some "/tmp/custom.conf", data_dir := none }).2
        = ["config_file"] ∧
    resolveConfigFile
        (parseArgsPaths { config_file := some "/tmp/custom.conf", data_dir := none }).1
        none "/home/user"
      = "/home/user/.config/change-poller/config" ∧
    resolveConfigFile
        (parseArgsPaths { config_file := some "/tmp/custom.conf", data_dir := none }).1
        none "/home/user"
      ≠ "/tmp/custom.conf" := by
  refine ⟨rfl, rfl, rfl, rfl, ?_⟩
  decide

end ChangePoller
